import Mathlib

/-!
Shallow embedding of the Fantasy-Premier-League-QA repository
(src/qa_system.py, src/document_processor.py, src/app.py).

Text is modelled as `List Char` / `String` (Python ASCII lowercasing,
`\w` word characters and `str.title` are modelled on the ASCII range, which
covers all questions, player names and data-year labels the system uses).
Python `re` patterns used by `QASystem.validate_question` are embedded by a
small character-class matcher below.  Remote collaborators (the OpenAI chat
model, embeddings, the FAISS store, the RetrievalQA chain) are opaque to the
code; they are modelled as explicit function parameters.
-/

/-- Python `\w` (ASCII range): letters, digits or underscore. -/
def isWordChar (c : Char) : Bool := c.isAlphanum || c == '_'

/-- Python `str.lower()` on the ASCII range, applied characterwise. -/
def lowerStr (s : List Char) : List Char := s.map Char.toLower

/-- Python `int(...)` on a string of decimal digits (all call sites in
`validate_question` pass digit strings). -/
def strToNat (s : List Char) : Nat := s.foldl (fun a c => a * 10 + (c.toNat - 48)) 0

/-- Python `s.split("-")[-1]`: the segment after the last dash. -/
def afterLastDash (s : List Char) : List Char :=
  s.foldl (fun acc c => if c == '-' then [] else acc ++ [c]) []

/-- Python `str.title()` on the ASCII range: a letter that follows a letter is
lowercased, a letter that follows a non-letter is uppercased. -/
def titleChars : Bool → List Char → List Char
  | _, [] => []
  | prevAlpha, c :: cs => (if prevAlpha then c.toLower else c.toUpper) :: titleChars c.isAlpha cs

def titleAscii (s : String) : String := String.mk (titleChars false s.data)

/-- The apostrophe character, used in message text and test questions. -/
def apos : String := String.mk [Char.ofNat 39]

/-- One regex atom: a literal character, any decimal digit (`\d`),
a character range (`[3-9]`), or a small alternative set (slash-or-dash). -/
inductive PatC where
  | lit (c : Char)
  | digit
  | range (lo hi : Char)
  | anyOf (cs : List Char)
deriving DecidableEq

def patCMatch : PatC → Char → Bool
  | .lit a, c => a == c
  | .digit, c => c.isDigit
  | .range lo hi, c => lo ≤ c && c ≤ hi
  | .anyOf cs, c => cs.contains c

/-- A sequence of literal atoms built from a string. -/
def lits (s : String) : List PatC := s.data.map PatC.lit

/-- Try to match `pat` at the head of `s`; on success return the rest. -/
def matchRem : List PatC → List Char → Option (List Char)
  | [], s => some s
  | _ :: _, [] => none
  | p :: ps, c :: cs => if patCMatch p c then matchRem ps cs else none

/-- `re.search` without boundaries: does `pat` match at some position? -/
def searchSub (pat : List PatC) : List Char → Bool
  | [] => (matchRem pat []).isSome
  | c :: cs => (matchRem pat (c :: cs)).isSome || searchSub pat cs

/-- Is the (possibly absent) character a word boundary partner, i.e. absent or
not a word character? -/
def nonWordOpt : Option Char → Bool
  | none => true
  | some c => !isWordChar c

/-- `re.search` for a `\b pat \b` pattern whose first and last atoms match word
characters only (all such patterns in the source do): scan every start
position, tracking the previous character for the left boundary and checking
the character after a match for the right boundary. -/
def searchWBFrom (pat : List PatC) (prev : Option Char) : List Char → Bool
  | [] => false
  | c :: cs =>
      (nonWordOpt prev &&
        (match matchRem pat (c :: cs) with
         | some rest => nonWordOpt rest.head?
         | none => false))
      || searchWBFrom pat (some c) cs

def searchWB (pat : List PatC) (s : List Char) : Bool := searchWBFrom pat none s

/-- Does `\b(20\d{2})\b` match at the start of `s`, given whether the
previous character is a word character? -/
def yearAt (prevWord : Bool) (s : List Char) : Option (List Char) :=
  match s with
  | '2' :: '0' :: c :: d :: rest =>
      if !prevWord && c.isDigit && d.isDigit && nonWordOpt rest.head? then
        some ['2', '0', c, d]
      else none
  | _ => none

/-- Python `re.findall(r'\b(20\d{2})\b', question)`: left-to-right scan;
`prevWord` says whether the previous character is a word character (false at
the start of the string).  `re.findall` resumes *after* a successful match
(non-overlapping); this scan advances one character instead, which finds the
same matches: the three positions inside a match are preceded by a digit, so
the leading `\b` fails there, and the position just after a match starts with
a non-word character (the trailing `\b` of the match), so `2` cannot match
there either way. -/
def findYears (prevWord : Bool) : List Char → List (List Char)
  | [] => []
  | c :: cs =>
      match yearAt prevWord (c :: cs) with
      | some y => y :: findYears (isWordChar c) cs
      | none => findYears (isWordChar c) cs

/-- src/qa_system.py line 101: the year warning f-string. -/
def yearMsg (dy y : String) : String :=
  "Question mentions " ++ y ++ (", but our data is from " ++ dy)

/-- src/qa_system.py line 108: the recency warning f-string. -/
def recencyMsg (dy : String) : String :=
  "Question asks about current/recent data, but our dataset is from " ++ dy

/-- src/qa_system.py line 115: the player warning f-string. -/
def playerMsg (dy p : String) : String :=
  ("Question asks about " ++ titleAscii p ++ ", who likely wasn" ++ apos ++ "t in the ")
    ++ dy ++ " season"

/-- src/qa_system.py line 112: the player denylist. -/
def modern_players : List String := ["haaland", "nunez", "antony", "casemiro", "tchouameni"]

/-- src/qa_system.py lines 104-105: the recency patterns, in source order;
the Bool records whether the pattern is word-boundary delimited (`\b...\b`). -/
def recencyPatterns : List (List PatC × Bool) :=
  [ ([.lit '2', .lit '0', .lit '2', .range '3' '9'], false),
    (lits "2024" ++ [.anyOf ['/', '-']] ++ lits "202" ++ [.range '5' '9'], false),
    (lits "current", false),
    (lits "now", true),
    (lits "today", true),
    (lits "latest", true),
    (lits "recent", true),
    (lits "this season", true) ]

/-- Does any recency pattern match (the Python loop appends one warning and
breaks on the first match, so only this disjunction is observable)? -/
def recencyAny (s : List Char) : Bool :=
  recencyPatterns.any fun pr => if pr.2 then searchWB pr.1 s else searchSub pr.1 s

/-- src/qa_system.py lines 93-117, `QASystem.validate_question`, as a function
of the `data_year` configuration and the question text.  The three Python
loops that append to `warnings` are mirrored by three folds in sequence. -/
def validate_question (dy question : String) : List String :=
  let terminal := strToNat (afterLastDash dy.data)
  let years := findYears false question.data
  let w1 := years.foldl
    (fun acc y => if strToNat y > terminal then acc ++ [yearMsg dy (String.mk y)] else acc) []
  let lower := lowerStr question.data
  let w2 := if recencyAny lower then w1 ++ [recencyMsg dy] else w1
  modern_players.foldl
    (fun acc p => if searchSub (lits p) lower then acc ++ [playerMsg dy p] else acc) w2

/-- The year warnings alone, in the order the year tokens are found. -/
def yearWarnings (dy q : String) : List String :=
  (findYears false q.data).filterMap fun y =>
    if strToNat y > strToNat (afterLastDash dy.data) then some (yearMsg dy (String.mk y))
    else none

/-- The recency warning alone (empty or a single warning). -/
def recencyWarnings (dy q : String) : List String :=
  if recencyAny (lowerStr q.data) then [recencyMsg dy] else []

/-- The player warnings alone, in denylist order. -/
def playerWarnings (dy q : String) : List String :=
  modern_players.filterMap fun p =>
    if searchSub (lits p) (lowerStr q.data) then some (playerMsg dy p) else none

/-- A configuration value: the Python config dict is heterogeneous, holding
booleans, strings, rationals (floats) and integers. -/
inductive CVal where
  | b (x : Bool)
  | s (x : String)
  | q (x : ℚ)
  | n (x : Nat)
deriving DecidableEq

/-- src/qa_system.py lines 16-23: the `default_config` dictionary. -/
def defaultConfig : List (String × CVal) :=
  [ ("show_validation", .b true),
    ("verbose", .b true),
    ("llm_model", .s "gpt-3.5-turbo"),
    ("temperature", .q (1/10)),
    ("retrieval_k", .n 3),
    ("data_year", .s "2019-20") ]

/-- src/qa_system.py line 26: `self.config = {**default_config, **(config or {})}`.
The user dict is an association list without duplicate keys; lookup prefers the
caller's value and falls back to the default. -/
def mergedCfg (user : List (String × CVal)) : String → Option CVal :=
  fun k => (List.lookup k user).orElse fun _ => List.lookup k defaultConfig

/-- src/document_processor.py lines 12-21: `DocumentProcessor.__init__` fixes
the embedding model and the splitter parameters. -/
structure DocumentProcessor where
  embedding_model : String
  chunk_size : Nat
  chunk_overlap : Nat
deriving DecidableEq

def defaultProcessor : DocumentProcessor :=
  { embedding_model := "text-embedding-3-small", chunk_size := 1000, chunk_overlap := 200 }

/-- src/qa_system.py lines 35-39: the ChatOpenAI collaborator as configured
data (model identifier and temperature). -/
structure ChatModel where
  model : String
  temperature : ℚ
deriving DecidableEq

/-- The data that `setup_document` bakes into the RetrievalQA chain: the chat
model, the retriever's `k` (read raw from the config dict) and the prompt. -/
structure QAChainSpec where
  llm : ChatModel
  retrieval_k : Option CVal
  prompt : String

/-- The dictionary returned by `qa_chain.invoke`: the answer text under
`result` and the retrieved chunks under `source_documents`. -/
structure ChainResult where
  result : String
  source_documents : List String

/-- src/qa_system.py lines 11-41: the `QASystem` object state. -/
structure QASystem where
  config : String → Option CVal
  show_validation : Bool
  verbose : Bool
  data_year : String
  llm : ChatModel
  processor : DocumentProcessor
  vectorstore : Option (List (List Char))
  qa_chain : Option QAChainSpec

/-- src/qa_system.py lines 12-41, `QASystem.__init__`: merge the config,
copy frequent options to attributes, build the collaborator handles, and leave
`vectorstore` and `qa_chain` unset.  Python is dynamically typed; the embedding
returns `none` if a read option does not have the type the code expects (all
configurations in the claims are well-typed, and the defaults always are). -/
def initQA (user : List (String × CVal)) : Option QASystem :=
  let cfg := mergedCfg user
  match cfg "show_validation", cfg "verbose", cfg "data_year",
        cfg "llm_model", cfg "temperature" with
  | some (.b sv), some (.b vb), some (.s dy), some (.s mdl), some (.q tp) =>
      some { config := cfg, show_validation := sv, verbose := vb, data_year := dy,
             llm := { model := mdl, temperature := tp }, processor := defaultProcessor,
             vectorstore := none, qa_chain := none }
  | _, _, _, _, _ => none

/-- A fallback state used only to strip the `Option` from `initQA` at concrete
well-typed configurations (where `initQA` always succeeds). -/
def fallbackQA : QASystem :=
  { config := fun _ => none, show_validation := true, verbose := true,
    data_year := "2019-20", llm := { model := "gpt-3.5-turbo", temperature := 1/10 },
    processor := defaultProcessor, vectorstore := none, qa_chain := none }

/-- A `QASystem` constructed with an empty configuration dictionary. -/
def freshQA : QASystem := (initQA []).getD fallbackQA

/-- Modelled from the spec: the repository delegates chunking to langchain's
`RecursiveCharacterTextSplitter(chunk_size=1000, chunk_overlap=200)`, whose
implementation is not part of src/. Per spec section 4.1, chunking advances a
sliding window of `chunk_size` (1000) characters, stepping by
`chunk_size - overlap` (800) each time, with hard character cuts; a final
partial window is kept as-is. -/
def splitText1000 (s : List Char) : List (List Char) :=
  if s.length ≤ 1000 then [s]
  else s.take 1000 :: splitText1000 (s.drop 800)
termination_by s.length
decreasing_by
  simp only [List.length_drop]
  omega

/-- src/document_processor.py lines 29-32, `split_documents`: each page's text
is split separately and the chunks are concatenated in order. -/
def split_documents (docs : List (List Char)) : List (List Char) :=
  (docs.map splitText1000).flatten

/-- src/qa_system.py lines 58-72: the prompt template f-string (the doubled
braces of the Python source render as literal placeholders). -/
def promptTemplate (dy : String) : String :=
  "You are a Fantasy Premier League (FPL) expert assistant. \nUse the following pieces of context to answer the question about player data, teams, positions, costs, and points.\n\nIMPORTANT: The data you have is from the "
  ++ dy ++ " FPL season only. \nIf asked about other seasons or current data, clearly state that your information is limited to the "
  ++ dy ++ " season.\n\nContext: {context}\n\nQuestion: {question}\n\nPlease provide a helpful and accurate answer based on the FPL data provided. \nIf the question asks about data outside the "
  ++ dy ++ " season, clearly state this limitation. \nInclude specific player names, costs, and points when relevant.\n\nAnswer:"

/-- src/qa_system.py lines 80-88: the RetrievalQA chain built from the current
state (the chat model, the raw `retrieval_k` config entry, and the prompt). -/
def mkChain (st : QASystem) : QAChainSpec :=
  { llm := st.llm, retrieval_k := st.config "retrieval_k",
    prompt := promptTemplate st.data_year }

/-- src/qa_system.py lines 43-91, `QASystem.setup_document`.  The collaborator
calls (PDF loading and embedding) are modelled by taking the loaded pages as a
parameter; the method stores the new vector store and QA chain and touches no
other field. -/
def setup_document (st : QASystem) (docs : List (List Char)) : QASystem :=
  { st with vectorstore := some (split_documents docs),
            qa_chain := some (mkChain st) }

/-- src/qa_system.py lines 93-117 as a method: the body reads `self.data_year`
and assigns no attribute, so the state comes back unchanged; it calls no
collaborator (the embedding takes none). -/
def QASystem.validateQ (st : QASystem) (q : String) : List String × QASystem :=
  (validate_question st.data_year q, st)

/-- The observable print events of `ask_question`, abstracted from their
console formatting. -/
inductive OutEvent where
  | scopeWarnings (ws : List String)
  | questionEcho (q : String)
  | answerLine (a : String)
  | reminder
  | chunkCount (n : Nat)

/-- src/qa_system.py lines 119-150, `QASystem.ask_question`.  The RetrievalQA
collaborator is the `invoke` parameter.  When `qa_chain` is unset the method
returns the sentinel string as a *normal* return value (line 122); it raises
nothing, so the error side of the `Except` is never produced. -/
def ask_question (st : QASystem) (invoke : QAChainSpec → String → ChainResult)
    (q : String) : Except Unit String × List OutEvent :=
  match st.qa_chain with
  | none => (.ok "Please setup a document first!", [])
  | some ch =>
    let ws := validate_question st.data_year q
    let out1 : List OutEvent :=
      if st.show_validation && !ws.isEmpty then [.scopeWarnings ws] else []
    let out2 := out1 ++ (if st.verbose then [.questionEcho q] else [])
    let result := invoke ch q
    let answer := result.result
    let out3 := out2 ++ [.answerLine answer]
    let out4 := out3 ++
      (if st.show_validation && !(validate_question st.data_year q).isEmpty then
        [.reminder] else [])
    let out5 := out4 ++ (if st.verbose then [.chunkCount result.source_documents.length] else [])
    (.ok answer, out5)

/-- A constant collaborator used in concrete instantiations. -/
def inv0 : QAChainSpec → String → ChainResult :=
  fun _ _ => { result := "mock answer", source_documents := ["chunk"] }

/-- A ready pipeline: `freshQA` after one `setup_document` call. -/
def readyQA : QASystem := setup_document freshQA [[' ']]

/-! ### Helper lemmas -/

theorem year_fold_eq (dy : String) (t : Nat) (l : List (List Char)) :
    ∀ init : List String,
      l.foldl (fun acc y => if strToNat y > t then acc ++ [yearMsg dy (String.mk y)] else acc)
          init
        = init ++ l.filterMap
            (fun y => if strToNat y > t then some (yearMsg dy (String.mk y)) else none) := by
  induction l with
  | nil => intro init; simp
  | cons x xs ih =>
      intro init
      by_cases h : strToNat x > t <;>
        simp [List.foldl_cons, List.filterMap_cons, h, ih]

theorem player_fold_eq (dy : String) (lower : List Char) (l : List String) :
    ∀ init : List String,
      l.foldl (fun acc p => if searchSub (lits p) lower then acc ++ [playerMsg dy p] else acc)
          init
        = init ++ l.filterMap
            (fun p => if searchSub (lits p) lower then some (playerMsg dy p) else none) := by
  induction l with
  | nil => intro init; simp
  | cons x xs ih =>
      intro init
      by_cases h : searchSub (lits x) lower <;>
        simp [List.foldl_cons, List.filterMap_cons, h, ih]

/-- `validate_question` decomposes into the year warnings (in found order),
then the recency warning, then the player warnings (in denylist order). -/
theorem validate_question_parts (dy q : String) :
    validate_question dy q
      = yearWarnings dy q ++ recencyWarnings dy q ++ playerWarnings dy q := by
  simp only [validate_question, yearWarnings, recencyWarnings, playerWarnings]
  rw [player_fold_eq, year_fold_eq]
  by_cases h : recencyAny (lowerStr q.data) <;> simp [h]

theorem yearAt_length (pw : Bool) (s y : List Char) (h : yearAt pw s = some y) :
    y.length = 4 := by
  unfold yearAt at h
  split at h
  · split at h
    · cases h; rfl
    · cases h
  · cases h

theorem findYears_mem_length (pw : Bool) (s y : List Char)
    (h : y ∈ findYears pw s) : y.length = 4 := by
  induction s generalizing pw with
  | nil => simp [findYears] at h
  | cons c cs ih =>
      rw [findYears] at h
      rcases hy : yearAt pw (c :: cs) with _ | y0
      · rw [hy] at h
        exact ih _ h
      · rw [hy] at h
        rcases List.mem_cons.mp h with rfl | h2
        · exact yearAt_length pw (c :: cs) y hy
        · exact ih _ h2

theorem yearMsg_ne_recencyMsg (dy y : String) (hy : y.length = 4) :
    yearMsg dy y ≠ recencyMsg dy := by
  intro h
  have hl := congrArg String.length h
  rw [yearMsg, recencyMsg] at hl
  simp only [String.length_append] at hl
  have e1 : ("Question mentions " : String).length = 18 := rfl
  have e2 : (", but our data is from " : String).length = 23 := rfl
  have e3 :
      ("Question asks about current/recent data, but our dataset is from " : String).length
        = 65 := by decide
  omega

theorem playerMsg_ne_recencyMsg (dy p : String) (hp : p ∈ modern_players) :
    playerMsg dy p ≠ recencyMsg dy := by
  have hlen : (titleAscii p).length ≤ 10 := by
    simp [modern_players] at hp
    rcases hp with rfl | rfl | rfl | rfl | rfl <;> decide
  intro h
  have hl := congrArg String.length h
  rw [playerMsg, recencyMsg] at hl
  simp only [String.length_append] at hl
  have e1 : ("Question asks about " : String).length = 20 := rfl
  have e2 : (", who likely wasn" : String).length = 17 := rfl
  have e3 : apos.length = 1 := rfl
  have e4 : ("t in the " : String).length = 9 := rfl
  have e5 : (" season" : String).length = 7 := rfl
  have e6 :
      ("Question asks about current/recent data, but our dataset is from " : String).length
        = 65 := by decide
  omega

/-- Whenever some recency pattern matches, the produced warning list counts the
recency message exactly once. -/
theorem validate_count_recency (dy q : String)
    (h : recencyAny (lowerStr q.data) = true) :
    (validate_question dy q).count (recencyMsg dy) = 1 := by
  rw [validate_question_parts, List.count_append, List.count_append]
  have hy : (yearWarnings dy q).count (recencyMsg dy) = 0 := by
    rw [List.count_eq_zero]
    intro hm
    rw [yearWarnings, List.mem_filterMap] at hm
    obtain ⟨y, hyy, hsome⟩ := hm
    by_cases hc : strToNat y > strToNat (afterLastDash dy.data)
    · rw [if_pos hc] at hsome
      have h4 : (String.mk y).length = 4 := findYears_mem_length false q.data y hyy
      exact yearMsg_ne_recencyMsg dy (String.mk y) h4 (Option.some.inj hsome)
    · rw [if_neg hc] at hsome; cases hsome
  have hp : (playerWarnings dy q).count (recencyMsg dy) = 0 := by
    rw [List.count_eq_zero]
    intro hm
    rw [playerWarnings, List.mem_filterMap] at hm
    obtain ⟨p, hpp, hsome⟩ := hm
    by_cases hc : searchSub (lits p) (lowerStr q.data) = true
    · rw [if_pos hc] at hsome
      exact playerMsg_ne_recencyMsg dy p hpp (Option.some.inj hsome)
    · rw [if_neg hc] at hsome; cases hsome
  rw [hy, hp, recencyWarnings, if_pos h]
  simp

/-- The head chunk of a split is always the first 1000 characters. -/
theorem splitText1000_head (s : List Char) :
    ∃ rest, splitText1000 s = s.take 1000 :: rest := by
  rw [splitText1000]
  split
  · exact ⟨[], by rw [List.take_of_length_le (by omega)]⟩
  · exact ⟨_, rfl⟩

/-- Adjacent chunks overlap by exactly 200 characters (the step is 800 and the
final chunk is always longer than 200 characters, so this holds at every
adjacent pair). -/
theorem splitText1000_overlap (s : List Char) :
    ∀ (i : Nat) (a b : List Char),
      (splitText1000 s).get? i = some a → (splitText1000 s).get? (i + 1) = some b →
      a.drop (a.length - 200) = b.take 200 := by
  induction s using splitText1000.induct with
  | case1 s hle =>
      intro i a b _ hb
      rw [splitText1000, if_pos hle] at hb
      simp at hb
  | case2 s hle ih =>
      intro i a b ha hb
      rw [splitText1000, if_neg hle] at ha hb
      cases i with
      | zero =>
          simp only [List.get?] at ha hb
          obtain ⟨rest, hr⟩ := splitText1000_head (s.drop 800)
          rw [hr] at hb
          simp only [List.get?] at hb
          have ha2 : a = s.take 1000 := (Option.some.inj ha).symm
          have hb2 : b = (s.drop 800).take 1000 := (Option.some.inj hb).symm
          subst ha2 hb2
          have hlen : (s.take 1000).length = 1000 := by
            rw [List.length_take]; omega
          rw [hlen, List.drop_take, List.take_take]
          norm_num
      | succ j =>
          simp only [List.get?] at ha hb
          exact ih j a b ha hb

set_option maxRecDepth 4000 in
/-- Every character position of the source text is covered by some chunk. -/
theorem splitText1000_cover (s : List Char) :
    ∀ j, j < s.length → ∃ c ∈ splitText1000 s, ∃ k, c.get? k = s.get? j := by
  induction s using splitText1000.induct with
  | case1 s hle =>
      intro j _
      refine ⟨s, ?_, j, rfl⟩
      rw [splitText1000, if_pos hle]
      simp
  | case2 s hle ih =>
      intro j hj
      by_cases hj1000 : j < 1000
      · refine ⟨s.take 1000, ?_, j, ?_⟩
        · rw [splitText1000, if_neg hle]; simp
        · rw [List.get?_take hj1000]
      · obtain ⟨c, hc, k, hk⟩ := ih (j - 800) (by rw [List.length_drop]; omega)
        refine ⟨c, ?_, k, ?_⟩
        · rw [splitText1000, if_neg hle]
          exact List.mem_cons_of_mem _ hc
        · rw [hk, List.get?_drop]
          congr 1
          omega

/-! ### Claim theorems -/

/-- C1 (counterexample): calling `ask_question` before any `setup_document`
does not raise: on a freshly constructed system it yields the sentinel string
"Please setup a document first!" as a *normal* return value (`Except.ok`),
never the error side. -/
theorem ask_question_uninit_returns_normally :
    (ask_question freshQA inv0 "Who is the best?").1
        = Except.ok "Please setup a document first!"
    ∧ (ask_question freshQA inv0 "Who is the best?").1 ≠ Except.error () := by
  refine ⟨rfl, ?_⟩
  intro h
  rw [show (ask_question freshQA inv0 "Who is the best?").1
      = Except.ok "Please setup a document first!" from rfl] at h
  exact Except.noConfusion h

/-- C1 (amended): for every question, calling `ask_question` before any
successful `setup_document` returns the sentinel string
"Please setup a document first!" as a normal return value (it does not raise);
after a successful `setup_document`, the same call succeeds and returns the
collaborator's answer. -/
theorem ask_question_state_contract :
    (∀ (st : QASystem) (inv : QAChainSpec → String → ChainResult) (q : String),
        st.qa_chain = none →
        (ask_question st inv q).1 = Except.ok "Please setup a document first!")
    ∧ (∀ (st : QASystem) (docs : List (List Char)) (inv : QAChainSpec → String → ChainResult)
          (q : String),
        (ask_question (setup_document st docs) inv q).1 = Except.ok (inv (mkChain st) q).result) := by
  constructor
  · intro st inv q h
    simp [ask_question, h]
  · intro st docs inv q
    simp [ask_question, setup_document]

theorem ask_question_state_contract_witness :
    (ask_question freshQA inv0 "hello").1 = Except.ok "Please setup a document first!" :=
  ask_question_state_contract.1 freshQA inv0 "hello" rfl

/-- C2 (code behavior at the failing input): with `data_year = "2019-20"` the
terminal-year comparison uses `int("2019-20".split("-")[-1]) = 20`, so the
in-range year 2019 is flagged: the question "Who scored the most points in
2019?" produces a year warning even though 2019 does not exceed 2020. -/
theorem year_check_flags_in_range_year :
    validate_question "2019-20" "Who scored the most points in 2019?"
        = [yearMsg "2019-20" "2019"]
    ∧ strToNat (afterLastDash ("2019-20".data)) = 20 := by
  constructor
  · decide
  · decide

/-- C3 (counterexample): the configuration key `model` is not recognized by
`QASystem.__init__` — constructing with `{"model": "gpt-4"}` leaves the chat
model at the default `gpt-3.5-turbo`, not the supplied value. -/
theorem model_key_ignored :
    (initQA [("model", CVal.s "gpt-4")]).map (fun st => st.llm.model)
        = some "gpt-3.5-turbo"
    ∧ ("gpt-3.5-turbo" : String) ≠ "gpt-4" := by
  constructor
  · rfl
  · decide

/-- C3 (amended): the recognized configuration key for the chat-model identity
is `llm_model` (not `model`); constructing `QASystem` with caller-supplied
`llm_model` and `temperature` yields a pipeline whose chat model and
temperature equal the supplied values. -/
theorem llm_model_temperature_configurable (m : String) (t : ℚ) :
    (initQA [("llm_model", CVal.s m), ("temperature", CVal.q t)]).map
        (fun st => (st.llm.model, st.llm.temperature))
      = some (m, t) := rfl

/-- C4: the constructor merges caller configuration over the defaults per key
(shallow merge): a caller-supplied key wins, a missing key falls back to its
default; and concretely, constructing with only `retrieval_k = 5` yields an
effective `retrieval_k` of 5 (both in the stored config and in the chain built
by `setup_document`) while every other option keeps its documented default. -/
theorem config_shallow_merge :
    (∀ (user : List (String × CVal)) (k : String) (v : CVal),
        List.lookup k user = some v → mergedCfg user k = some v)
    ∧ (∀ (user : List (String × CVal)) (k : String),
        List.lookup k user = none → mergedCfg user k = List.lookup k defaultConfig)
    ∧ ((initQA [("retrieval_k", CVal.n 5)]).map (fun st =>
          (st.config "retrieval_k", st.config "llm_model", st.config "temperature",
           st.config "show_validation", st.config "verbose", st.config "data_year",
           st.show_validation, st.verbose, st.data_year, st.llm.model, st.llm.temperature,
           (mkChain st).retrieval_k))
        = some (some (.n 5), some (.s "gpt-3.5-turbo"), some (.q (1/10)),
                some (.b true), some (.b true), some (.s "2019-20"),
                true, true, "2019-20", "gpt-3.5-turbo", 1/10, some (.n 5))) := by
  refine ⟨?_, ?_, ?_⟩
  · intro user k v h
    simp [mergedCfg, h, Option.orElse]
  · intro user k h
    simp [mergedCfg, h, Option.orElse]
  · rfl

theorem config_shallow_merge_witness :
    mergedCfg [("retrieval_k", CVal.n 5)] "retrieval_k" = some (CVal.n 5)
    ∧ mergedCfg [("retrieval_k", CVal.n 5)] "llm_model"
        = List.lookup "llm_model" defaultConfig :=
  ⟨config_shallow_merge.1 _ _ _ rfl, config_shallow_merge.2.1 _ _ rfl⟩

/-- C5: the warnings of `validate_question` always appear as the year warnings
in the order the year tokens are found, then the recency warning (if any),
then one warning per matched denylisted player in denylist order; and whenever
none of the three checks matches — in particular on empty text — the result is
the empty list (the function is total, no failure). -/
theorem validate_warning_order :
    (∀ dy q : String,
        validate_question dy q
          = yearWarnings dy q ++ recencyWarnings dy q ++ playerWarnings dy q)
    ∧ (∀ dy q : String,
        yearWarnings dy q = [] → recencyAny (lowerStr q.data) = false →
        playerWarnings dy q = [] → validate_question dy q = []) := by
  constructor
  · exact validate_question_parts
  · intro dy q h1 h2 h3
    rw [validate_question_parts dy q, h1, h3, recencyWarnings, h2]
    simp

theorem validate_warning_order_witness :
    validate_question "2019-20" "Who is the most expensive midfielder?" = [] :=
  validate_warning_order.2 "2019-20" "Who is the most expensive midfielder?"
    (by decide) (by decide) (by decide)

/-- C6: whenever any of the fixed case-insensitive recency phrases or
near-future year patterns matches the question, the warning list contains the
recency warning exactly once, no matter how many of the patterns match; and
concretely "What's the latest news on transfers?" yields exactly the single
recency warning. -/
theorem single_recency_warning :
    (∀ dy q : String, recencyAny (lowerStr q.data) = true →
        (validate_question dy q).count (recencyMsg dy) = 1)
    ∧ validate_question "2019-20" ("What" ++ apos ++ "s the latest news on transfers?")
        = [recencyMsg "2019-20"] := by
  constructor
  · exact validate_count_recency
  · decide

theorem single_recency_warning_witness :
    (validate_question "2019-20"
        ("What" ++ apos ++ "s the latest news on transfers?")).count (recencyMsg "2019-20")
      = 1 :=
  single_recency_warning.1 "2019-20" ("What" ++ apos ++ "s the latest news on transfers?")
    (by decide)

/-- C7: `validate_question` is pure and deterministic — as a method it returns
the state unchanged (its body assigns no attribute and calls no collaborator),
and calling it twice in a row on the same input yields identical warning
lists. -/
theorem validate_question_pure (st : QASystem) (q : String) :
    (st.validateQ q).2 = st
    ∧ (st.validateQ q).1 = ((st.validateQ q).2.validateQ q).1 :=
  ⟨rfl, rfl⟩

/-- C8: scope warnings never block execution — on a ready pipeline with a
fixed collaborator, the answer returned by `ask_question` is the collaborator's
answer, regardless of the `show_validation` flag and of whether any warnings
are produced. -/
theorem warnings_never_block (st : QASystem) (ch : QAChainSpec)
    (inv : QAChainSpec → String → ChainResult) (q : String) (b : Bool)
    (h : st.qa_chain = some ch) :
    (ask_question { st with show_validation := b } inv q).1
      = Except.ok (inv ch q).result := by
  have hq : ({ st with show_validation := b } : QASystem).qa_chain = some ch := h
  rw [ask_question, hq]

theorem warnings_never_block_witness :
    (ask_question { readyQA with show_validation := false } inv0 "Who?").1
      = Except.ok (inv0 (mkChain freshQA) "Who?").result :=
  warnings_never_block readyQA (mkChain freshQA) inv0 "Who?" false rfl

/-- C9: for text split with chunk size 1000 and overlap 200, the trailing 200
characters of each chunk equal the leading 200 characters of the next chunk
(this holds at every adjacent pair, in particular away from the final
boundary), and every character of the original text appears in at least one
chunk. -/
theorem chunk_overlap_and_coverage :
    (∀ (s : List Char) (i : Nat) (a b : List Char),
        (splitText1000 s).get? i = some a → (splitText1000 s).get? (i + 1) = some b →
        a.drop (a.length - 200) = b.take 200)
    ∧ (∀ (s : List Char) (j : Nat), j < s.length →
        ∃ c ∈ splitText1000 s, ∃ k, c.get? k = s.get? j) :=
  ⟨splitText1000_overlap, splitText1000_cover⟩

theorem chunk_overlap_and_coverage_witness :
    ((List.replicate 1001 'x').take 1000).drop
        (((List.replicate 1001 'x').take 1000).length - 200)
      = ((List.replicate 1001 'x').drop 800).take 200
    ∧ ∃ c ∈ splitText1000 ['a'], ∃ k, c.get? k = (['a'] : List Char).get? 0 := by
  have h0 : (splitText1000 (List.replicate 1001 'x')).get? 0
      = some ((List.replicate 1001 'x').take 1000) := by
    rw [splitText1000, if_neg (by rw [List.length_replicate]; omega)]
    rfl
  have h1 : (splitText1000 (List.replicate 1001 'x')).get? 1
      = some ((List.replicate 1001 'x').drop 800) := by
    rw [splitText1000, if_neg (by rw [List.length_replicate]; omega)]
    show (splitText1000 ((List.replicate 1001 'x').drop 800)).get? 0
        = some ((List.replicate 1001 'x').drop 800)
    rw [splitText1000,
        if_pos (by rw [List.length_drop, List.length_replicate]; omega)]
    rfl
  exact ⟨chunk_overlap_and_coverage.1 (List.replicate 1001 'x') 0 _ _ h0 h1,
         chunk_overlap_and_coverage.2 ['a'] 0 (by decide)⟩

/-- C10: `setup_document` writes only the `vectorstore` and `qa_chain` fields —
the merged config and the `show_validation`, `verbose`, `data_year`, `llm` and
`processor` fields are exactly as before the call, and the index and chain are
replaced wholesale. -/
theorem setup_document_frame (st : QASystem) (docs : List (List Char)) :
    (setup_document st docs).config = st.config
    ∧ (setup_document st docs).show_validation = st.show_validation
    ∧ (setup_document st docs).verbose = st.verbose
    ∧ (setup_document st docs).data_year = st.data_year
    ∧ (setup_document st docs).llm = st.llm
    ∧ (setup_document st docs).processor = st.processor
    ∧ (setup_document st docs).vectorstore = some (split_documents docs)
    ∧ (setup_document st docs).qa_chain = some (mkChain st) :=
  ⟨rfl, rfl, rfl, rfl, rfl, rfl, rfl, rfl⟩
